import Mathlib

/-!
Shallow embedding of the speech pipeline of `backend/app/services/speech_service.py`
(class `SpeechService`: `voice_to_text`, `text_to_speech`,
`_get_recognition_language_code`, `_get_tts_language_code`) and of the
`voice_speed` field validation of `backend/app/models/schemas.py`
(`TextToSpeechRequest`).

External collaborators (`pydub.AudioSegment`, `speech_recognition`, `gTTS`,
CPython's `base64.b64decode`) are modelled as oracles / abstract outcomes:
only the success-or-failure shape and the data the repository code actually
inspects are represented.  Filesystem effects are modelled by an explicit
record of the two temporary paths a call touches plus an event trace.
-/

/- ------------------------------------------------------------------ -/
/- Language code tables (`_get_recognition_language_code`,
   `_get_tts_language_code`, speech_service.py lines 219-281)          -/
/- ------------------------------------------------------------------ -/

/-- Table `recognition_mapping` from `_get_recognition_language_code`. -/
def recognition_mapping : List (String × String) :=
  [("en", "en-US"), ("hi", "hi-IN"), ("kn", "kn-IN"), ("ta", "ta-IN"),
   ("te", "te-IN"), ("ml", "ml-IN"), ("bn", "bn-IN"), ("gu", "gu-IN"),
   ("mr", "mr-IN"), ("pa", "pa-IN"), ("ur", "ur-PK"), ("es", "es-ES"),
   ("fr", "fr-FR"), ("de", "de-DE"), ("it", "it-IT"), ("pt", "pt-PT"),
   ("ru", "ru-RU"), ("ja", "ja-JP"), ("ko", "ko-KR"), ("zh", "zh-CN"),
   ("ar", "ar-SA")]

/-- Table `tts_mapping` from `_get_tts_language_code`. -/
def tts_mapping : List (String × String) :=
  [("kn", "kn"), ("ta", "ta"), ("te", "te"), ("ml", "ml"), ("bn", "bn"),
   ("gu", "gu"), ("mr", "mr"), ("pa", "pa"), ("ur", "ur"), ("zh", "zh-cn")]

/-- Python `dict.get key default` over an association list. -/
def dictGet (t : List (String × String)) (k : String) : Option String :=
  (t.find? (fun p => p.1 == k)).map Prod.snd

/-- Embedding of `_get_recognition_language_code`:
`recognition_mapping.get(language, "en-US")`. -/
def get_recognition_language_code (language : String) : String :=
  (dictGet recognition_mapping language).getD "en-US"

/-- Embedding of `_get_tts_language_code`: `tts_mapping.get(language, language)`. -/
def get_tts_language_code (language : String) : String :=
  (dictGet tts_mapping language).getD language

/- ------------------------------------------------------------------ -/
/- CPython `base64.b64decode(s)` with the default `validate=False`     -/
/- ------------------------------------------------------------------ -/

instance {ε α : Type} [DecidableEq ε] [DecidableEq α] : DecidableEq (Except ε α) := fun a b =>
  match a, b with
  | .error e, .error f =>
      if h : e = f then isTrue (by rw [h]) else isFalse (by simp [h])
  | .ok x, .ok y =>
      if h : x = y then isTrue (by rw [h]) else isFalse (by simp [h])
  | .error _, .ok _ => isFalse (by simp)
  | .ok _, .error _ => isFalse (by simp)

/-- Membership in the standard base64 alphabet (without padding). -/
def b64Char (c : Char) : Bool :=
  (('A' ≤ c && c ≤ 'Z') || ('a' ≤ c && c ≤ 'z') || ('0' ≤ c && c ≤ '9')
    || c == '+' || c == '/')

/-- Model of CPython `base64.b64decode(s)` with `validate=False`, as called
at speech_service.py line 45: characters outside the base64 alphabet and
padding are discarded prior to the padding check; the remaining characters
must form whole 4-character groups, else `binascii.Error` is raised.  The
decoded byte values themselves are abstracted: the retained character list
stands in for the decoded payload. -/
def b64decode_lenient (s : String) : Except Unit (List Char) :=
  let kept := s.toList.filter (fun c => b64Char c || c == '=')
  if kept.length % 4 == 0 then Except.ok kept else Except.error ()

/-- A strict notion of "valid base64 string": only alphabet characters plus
well-formed trailing padding, in whole 4-character groups.  This is the
reading of "valid base64" used by the claims. -/
def isStrictBase64 (s : String) : Bool :=
  let cs := s.toList
  let dataPart := cs.takeWhile (fun c => c != '=')
  (cs.all (fun c => b64Char c || c == '=')
    && cs.length % 4 == 0
    && dataPart.all b64Char
    && (cs.length - dataPart.length) ≤ 2)

example : b64decode_lenient "####" = Except.ok [] := by decide
example : b64decode_lenient "abc" = Except.error () := by decide
example : isStrictBase64 "####" = false := by decide

/- ------------------------------------------------------------------ -/
/- Model of `voice_to_text` (speech_service.py lines 28-141)           -/
/- ------------------------------------------------------------------ -/

/-- Format candidates of the decode loop at line 60, in source order. -/
inductive AudioFormat
  | m4a | mp3 | wav | ogg | webm
deriving DecidableEq

/-- The fixed candidate order `['m4a', 'mp3', 'wav', 'ogg', 'webm']`. -/
def formatOrder : List AudioFormat :=
  [AudioFormat.m4a, AudioFormat.mp3, AudioFormat.wav, AudioFormat.ogg, AudioFormat.webm]

/-- The two temporary paths a `voice_to_text` call touches:
`temp_file_path` (the `.wav` file from `NamedTemporaryFile`) and
`temp_file_path.replace('.wav', '.raw')` (the raw dump). -/
inductive TempPath
  | wavPath | rawPath
deriving DecidableEq

/-- Content of a file in the model. -/
inductive FileContent
  /-- freshly created empty temporary file -/
  | empty
  /-- the decoded request payload, written verbatim -/
  | rawBytes (payload : List Char)
  /-- WAV export of a successful `AudioSegment` decode of the raw file as `fmt` -/
  | wavExport (fmt : AudioFormat)
deriving DecidableEq

/-- Events recorded while a `voice_to_text` call runs. -/
inductive VttEvent
  /-- a temporary file is created at `p` -/
  | acquire (p : TempPath)
  /-- the temporary file at `p` is unlinked -/
  | release (p : TempPath)
  /-- a decode attempt for `fmt` reading the file at `reads` -/
  | attempt (fmt : AudioFormat) (reads : TempPath)
  /-- `recognizer.recognize_google(audio, language=language)` -/
  | googleCall (language : String)
  /-- `recognizer.recognize_sphinx(audio)`; `language` records the language
  argument passed at the call site (`none` = not passed, library default) -/
  | sphinxCall (language : Option String)
deriving DecidableEq

/-- Outcome of one recognition backend call (`speech_recognition` API):
either recognized text, `UnknownValueError` (audio processed, no speech
found) or `RequestError` (backend unreachable). -/
inductive RecogOutcome
  | ok (text : String)
  | unknownValue
  | requestError
deriving DecidableEq

/-- Oracle fixing the behaviour of the external libraries during one
`voice_to_text` call: which format candidates `pydub` accepts for this
payload, whether `sr.AudioFile` can open a file with a given content, and
the outcomes of the two recognition backends. -/
structure VttOracle where
  decode : AudioFormat → Bool
  audioFileOk : FileContent → Bool
  google : RecogOutcome
  sphinx : RecogOutcome

/-- Final state of the two temporary paths after the call. -/
structure VttFiles where
  wav : Option FileContent
  raw : Option FileContent
deriving DecidableEq

/-- Observable outcome of one `voice_to_text` call: the returned pair or the
raised error message, the final temp-file state, the event trace, the list
of format candidates attempted, and the content written to the `.wav` path
before the recognition stage (`none` when that point was never reached). -/
structure VttRun where
  result : Except String (String × ℚ)
  files : VttFiles
  trace : List VttEvent
  attempted : List AudioFormat
  normalized : Option FileContent
deriving DecidableEq

/-- The decode loop at lines 60-80: try candidates in order, `break` on the
first success, `continue` on exception.  Returns the list of candidates
attempted and the first successful one (if any). -/
def tryFormats (dec : AudioFormat → Bool) : List AudioFormat → List AudioFormat × Option AudioFormat
  | [] => ([], none)
  | f :: rest =>
    if dec f then ([f], some f)
    else
      let r := tryFormats dec rest
      (f :: r.1, r.2)

/-- Content written to `temp_file_path` by lines 82-88: the WAV export of
the first successful decode, else the raw payload bytes (fallback). -/
def contentFor (o : VttOracle) (payload : List Char) : FileContent :=
  match (tryFormats o.decode formatOrder).2 with
  | some f => FileContent.wavExport f
  | none => FileContent.rawBytes payload

/-- Result of the recognition stage at lines 107-124 after the outer
exception handlers at lines 135-141 have rewritten the exceptions:
Google first; on `RequestError`, one retry against Sphinx; a second
`RequestError` raises "Speech recognition service unavailable", which the
generic handler at line 139 wraps. `UnknownValueError` from either backend
becomes "Could not understand the audio". -/
def recogResult (o : VttOracle) : Except String (String × ℚ) :=
  match o.google with
  | RecogOutcome.ok text => Except.ok (text, 85/100)
  | RecogOutcome.unknownValue => Except.error "Could not understand the audio"
  | RecogOutcome.requestError =>
    match o.sphinx with
    | RecogOutcome.ok text => Except.ok (text, 7/10)
    | RecogOutcome.unknownValue => Except.error "Could not understand the audio"
    | RecogOutcome.requestError =>
        Except.error "Voice to text conversion failed: Speech recognition service unavailable"

/-- Backend calls made by the recognition stage: one Google call with the
mapped locale; on `RequestError` one Sphinx call with no language argument
(the call site at line 118 passes only `audio`). -/
def recogEvents (o : VttOracle) (language : String) : List VttEvent :=
  VttEvent.googleCall (get_recognition_language_code language) ::
    (match o.google with
     | RecogOutcome.requestError => [VttEvent.sphinxCall none]
     | _ => [])

/-- Error raised when `sr.AudioFile` cannot open the normalized file
(generic exception, wrapped by the handler at line 139; the library's
message text is abstracted to a fixed string). -/
def decodeOpenFailMsg : String :=
  "Voice to text conversion failed: Audio file could not be read"

/-- Error raised when `base64.b64decode` fails at line 45 (a
`binascii.Error`, wrapped by the generic handler at line 139). -/
def b64FailMsg : String :=
  "Voice to text conversion failed: Incorrect padding"

/-- The cleanup of the `finally` block at lines 126-133: both temporary
paths are unlinked. -/
def cleanupEvents : List VttEvent :=
  [VttEvent.release TempPath.wavPath, VttEvent.release TempPath.rawPath]

/-- Embedding of `SpeechService.voice_to_text` (lines 28-141).  Decode the
base64 payload (before any file is created); create the `.wav` temp file,
write the raw dump, run the decode loop, write the normalized content;
open it with `sr.AudioFile`; recognize with Google, falling back to Sphinx
once on `RequestError`.  The `finally` block removes both temporary files
on every path that created them. -/
def voice_to_text (o : VttOracle) (audio_data : String) (language : String) : VttRun :=
  match b64decode_lenient audio_data with
  | Except.error _ =>
      { result := Except.error b64FailMsg
        files := ⟨none, none⟩
        trace := []
        attempted := []
        normalized := none }
  | Except.ok payload =>
      let tried := (tryFormats o.decode formatOrder).1
      let content := contentFor o payload
      let preTrace :=
        VttEvent.acquire TempPath.wavPath :: VttEvent.acquire TempPath.rawPath ::
          tried.map (fun f => VttEvent.attempt f TempPath.rawPath)
      if o.audioFileOk content then
        { result := recogResult o
          files := ⟨none, none⟩
          trace := preTrace ++ recogEvents o language ++ cleanupEvents
          attempted := tried
          normalized := some content }
      else
        { result := Except.error decodeOpenFailMsg
          files := ⟨none, none⟩
          trace := preTrace ++ cleanupEvents
          attempted := tried
          normalized := some content }

/-- Language arguments of the Google calls in a trace. -/
def googleLangArgs (tr : List VttEvent) : List String :=
  tr.filterMap (fun e =>
    match e with
    | VttEvent.googleCall l => some l
    | _ => none)

/-- Language arguments of the Sphinx calls in a trace (`none` entries are
calls made without a language argument). -/
def sphinxLangArgs (tr : List VttEvent) : List (Option String) :=
  tr.filterMap (fun e =>
    match e with
    | VttEvent.sphinxCall l => some l
    | _ => none)

/-- Temp paths read by the decode attempts in a trace. -/
def attemptReadPaths (tr : List VttEvent) : List TempPath :=
  tr.filterMap (fun e =>
    match e with
    | VttEvent.attempt _ p => some p
    | _ => none)

/-- Whether an event is a temp-file release. -/
def isReleaseEvent (e : VttEvent) : Bool :=
  match e with
  | VttEvent.release _ => true
  | _ => false

/-- Formalization of claim C9 as stated: each decode attempt reads its own
dedicated temporary resource, i.e. no two attempts share a path. -/
def dedicatedPerAttempt (tr : List VttEvent) : Prop :=
  (attemptReadPaths tr).Pairwise (fun p q => p ≠ q)

/- ------------------------------------------------------------------ -/
/- Model of `text_to_speech` (speech_service.py lines 143-217)         -/
/- ------------------------------------------------------------------ -/

/-- Oracle fixing the external behaviour during one `text_to_speech` call:
whether `tts.save` (the gTTS backend) succeeds, the length in milliseconds
of the saved baseline audio, and the length of the result of
`audio.speedup(playback_speed)` as a function of the input length and the
requested speed (the transform itself lives in `pydub`, outside this
repository). -/
structure TtsOracle where
  saveOk : Bool
  baselineLen : ℕ
  speedupLen : ℕ → ℚ → ℕ

/-- Final state of the files a `text_to_speech` call touches: the
`NamedTemporaryFile` `.mp3` and the persisted output artifact, each with
the length (ms) of the audio it holds. -/
structure TtsFiles where
  temp : Option ℕ
  output : Option ℕ
deriving DecidableEq

/-- Observable outcome of one `text_to_speech` call. -/
structure TtsRun where
  result : Except String (String × ℚ)
  files : TtsFiles
  /-- the `text=` argument passed to the gTTS constructor at line 171 -/
  spokenText : String
  /-- the `lang=` argument passed to the gTTS constructor at line 172 -/
  ttsLang : String
  /-- the `slow=` argument passed to the gTTS constructor at line 173 -/
  slowRequested : Bool
  /-- `playback_speed` arguments of the `audio.speedup` calls made -/
  speedupCalls : List ℚ
deriving DecidableEq

/-- The generated `uuid` filename is abstracted to a fixed name; per-call
uniqueness is not part of any claim considered here. -/
def tts_audio_url : String := "/api/v1/audio/generated.mp3"

/-- Embedding of `SpeechService.text_to_speech` (lines 143-217).
The gTTS object is created with `slow=(voice_speed < 0.8)`.  A
`NamedTemporaryFile(delete=False)` is created and `tts.save` writes into it
inside the `with` block; `temp_audio_path` is assigned only after `save`
returns, so when `save` raises, the `try/finally` at lines 181-207 is never
entered and the (empty) temporary file is left on disk while the generic
handler at line 215 re-raises.  On success: if `voice_speed != 1.0` the
audio is loaded and `speedup` is applied when `voice_speed > 1.0` or when
`0.8 <= voice_speed < 1.0`; the (possibly transformed) audio is exported to
the output path and the duration is `len(audio) / 1000`; the `finally`
block then unlinks the temporary file. -/
def text_to_speech (o : TtsOracle) (text language : String) (voice_speed : ℚ) : TtsRun :=
  let slow : Bool := decide (voice_speed < 4/5)
  if o.saveOk then
    if voice_speed = 1 then
      { result := Except.ok (tts_audio_url, (o.baselineLen : ℚ) / 1000)
        files := ⟨none, some o.baselineLen⟩
        spokenText := text
        ttsLang := get_tts_language_code language
        slowRequested := slow
        speedupCalls := [] }
    else
      if 1 < voice_speed then
        let lenFinal := o.speedupLen o.baselineLen voice_speed
        { result := Except.ok (tts_audio_url, (lenFinal : ℚ) / 1000)
          files := ⟨none, some lenFinal⟩
          spokenText := text
          ttsLang := get_tts_language_code language
          slowRequested := slow
          speedupCalls := [voice_speed] }
      else
        if 4/5 ≤ voice_speed then
          let lenFinal := o.speedupLen o.baselineLen voice_speed
          { result := Except.ok (tts_audio_url, (lenFinal : ℚ) / 1000)
            files := ⟨none, some lenFinal⟩
            spokenText := text
            ttsLang := get_tts_language_code language
            slowRequested := slow
            speedupCalls := [voice_speed] }
        else
          { result := Except.ok (tts_audio_url, (o.baselineLen : ℚ) / 1000)
            files := ⟨none, some o.baselineLen⟩
            spokenText := text
            ttsLang := get_tts_language_code language
            slowRequested := slow
            speedupCalls := [] }
  else
    { result := Except.error "Text to speech conversion failed: save failed"
      files := ⟨some 0, none⟩
      spokenText := text
      ttsLang := get_tts_language_code language
      slowRequested := slow
      speedupCalls := [] }

/- ------------------------------------------------------------------ -/
/- Model of `TextToSpeechRequest.voice_speed` (schemas.py line 78)     -/
/- ------------------------------------------------------------------ -/

/-- Embedding of the pydantic field
`voice_speed: Optional[float] = Field(1.0, ge=0.5, le=2.0)`: an absent
field takes the default `1.0`; a supplied value outside `[0.5, 2.0]` fails
validation (pydantic `ge`/`le` reject, they do not clamp). -/
def validate_voice_speed : Option ℚ → Except Unit ℚ
  | none => Except.ok 1
  | some v => if 1/2 ≤ v ∧ v ≤ 2 then Except.ok v else Except.error ()

/-- Modelled from the spec words for comparison: "speed: float, default
1.0, clamped to [0.5, 2.0]" - the clamping behaviour the claim asserts. -/
def spec_clamped_speed (v : ℚ) : ℚ := max (1/2) (min 2 v)

/- ------------------------------------------------------------------ -/
/- Concrete oracles used to instantiate the theorems                   -/
/- ------------------------------------------------------------------ -/

/-- Oracle: every format candidate fails to decode, `sr.AudioFile` opens
everything, both backends recognize. -/
def oracleAllFormatsFail : VttOracle :=
  ⟨fun _ => false, fun _ => true, RecogOutcome.ok "ok", RecogOutcome.ok "ok"⟩

/-- Oracle: only the `mp3` candidate decodes, everything else succeeds. -/
def oracleMp3Only : VttOracle :=
  ⟨fun f => decide (f = AudioFormat.mp3), fun _ => true,
   RecogOutcome.ok "hello", RecogOutcome.ok "hello"⟩

/-- Oracle: the primary backend is unreachable, the offline one answers. -/
def oracleOfflineFallback : VttOracle :=
  ⟨fun _ => true, fun _ => true, RecogOutcome.requestError, RecogOutcome.ok "hello"⟩

/-- Oracle: the primary backend processes the audio but finds no speech. -/
def oracleNoSpeech : VttOracle :=
  ⟨fun _ => true, fun _ => true, RecogOutcome.unknownValue, RecogOutcome.ok "x"⟩

/-- Synthesis oracle: save succeeds, baseline 4000 ms, the tempo transform
always yields 2000 ms. -/
def oracleTtsFixed : TtsOracle := ⟨true, 4000, fun _ _ => 2000⟩

/-- Synthesis oracle: the gTTS `save` call fails. -/
def oracleTtsSaveFails : TtsOracle := ⟨false, 3000, fun l _ => l⟩

/- ------------------------------------------------------------------ -/
/- Helper lemmas                                                       -/
/- ------------------------------------------------------------------ -/

theorem filterMap_const_none {α β : Type} (l : List α) :
    List.filterMap (fun _ => (none : Option β)) l = [] := by
  induction l with
  | nil => rfl
  | cons a t ih => simp [List.filterMap_cons, ih]

/-- Unfolding of `voice_to_text` when the base64 decode succeeds. -/
theorem voice_to_text_ok (o : VttOracle) (data language : String) (payload : List Char)
    (hb : b64decode_lenient data = Except.ok payload) :
    voice_to_text o data language =
      if o.audioFileOk (contentFor o payload) then
        { result := recogResult o
          files := ⟨none, none⟩
          trace := (VttEvent.acquire TempPath.wavPath :: VttEvent.acquire TempPath.rawPath ::
              ((tryFormats o.decode formatOrder).1).map
                (fun f => VttEvent.attempt f TempPath.rawPath))
            ++ recogEvents o language ++ cleanupEvents
          attempted := (tryFormats o.decode formatOrder).1
          normalized := some (contentFor o payload) }
      else
        { result := Except.error decodeOpenFailMsg
          files := ⟨none, none⟩
          trace := (VttEvent.acquire TempPath.wavPath :: VttEvent.acquire TempPath.rawPath ::
              ((tryFormats o.decode formatOrder).1).map
                (fun f => VttEvent.attempt f TempPath.rawPath))
            ++ cleanupEvents
          attempted := (tryFormats o.decode formatOrder).1
          normalized := some (contentFor o payload) } := by
  unfold voice_to_text
  rw [hb]

/-- Unfolding of `voice_to_text` when the base64 decode fails. -/
theorem voice_to_text_err (o : VttOracle) (data language : String)
    (hb : b64decode_lenient data = Except.error ()) :
    voice_to_text o data language =
      { result := Except.error b64FailMsg
        files := ⟨none, none⟩
        trace := []
        attempted := []
        normalized := none } := by
  unfold voice_to_text
  rw [hb]

/- ------------------------------------------------------------------ -/
/- Claim theorems                                                      -/
/- ------------------------------------------------------------------ -/

/-- C1 (code_bug): `voice_to_text` deletes both temporary files on every
exit path, but the cleanup claim fails for `text_to_speech`: when the gTTS
`save` call raises, `temp_audio_path` has not been assigned yet, the
`try/finally` at lines 181-207 is never entered, and the temporary `.mp3`
file created by `NamedTemporaryFile(delete=False)` at line 177 outlives
the failed call. -/
theorem cleanup_total_for_recognize_but_leaks_on_synthesize_save_failure :
    (∀ (o : VttOracle) (audio_data language : String),
        (voice_to_text o audio_data language).files = ⟨none, none⟩)
    ∧ (text_to_speech oracleTtsSaveFails "hello" "en" 1).result
        = Except.error "Text to speech conversion failed: save failed"
    ∧ (text_to_speech oracleTtsSaveFails "hello" "en" 1).files.temp = some 0 := by
  refine ⟨?_, rfl, rfl⟩
  intro o data lang
  rcases hb : b64decode_lenient data with u | payload
  · cases u
    rw [voice_to_text_err o data lang hb]
  · rw [voice_to_text_ok o data lang payload hb]
    split <;> rfl

/-- C3 (counterexample): an input code with no table entry is not returned
unchanged by the recognition mapper; `"xx"` has no entry and maps to the
default locale `"en-US"`, not to `"xx"`. -/
theorem unknown_code_not_passed_through_by_recognition_mapper :
    dictGet recognition_mapping "xx" = none
    ∧ get_recognition_language_code "xx" = "en-US"
    ∧ get_recognition_language_code "xx" ≠ "xx" := by
  refine ⟨by decide, by decide, by decide⟩

/-- C3 (amended, confirmed): both mappers are total; a code with a table
entry maps to its entry; a code with no entry maps to the default locale
`"en-US"` under the recognition mapper and passes through unchanged under
the synthesis mapper. -/
theorem language_mappers_total_with_table_and_defaults (code : String) :
    (∀ v, dictGet recognition_mapping code = some v →
        get_recognition_language_code code = v)
    ∧ (dictGet recognition_mapping code = none →
        get_recognition_language_code code = "en-US")
    ∧ (∀ v, dictGet tts_mapping code = some v → get_tts_language_code code = v)
    ∧ (dictGet tts_mapping code = none → get_tts_language_code code = code) := by
  refine ⟨?_, ?_, ?_, ?_⟩
  · intro v h; simp [get_recognition_language_code, h]
  · intro h; simp [get_recognition_language_code, h]
  · intro v h; simp [get_tts_language_code, h]
  · intro h; simp [get_tts_language_code, h]

/-- Witness for the amended C3 theorem at concrete codes. -/
theorem language_mappers_witness :
    get_recognition_language_code "kn" = "kn-IN" ∧ get_tts_language_code "fr" = "fr" :=
  ⟨(language_mappers_total_with_table_and_defaults "kn").1 "kn-IN" (by decide),
   (language_mappers_total_with_table_and_defaults "fr").2.2.2 (by decide)⟩

/-- C8 (counterexample): a supplied speed outside `[0.5, 2.0]` is rejected
by the pydantic field validation, not clamped to the nearest in-range
value: `voice_speed = 3.0` fails validation although its clamped value
would be `2.0`. -/
theorem out_of_range_speed_rejected_not_clamped :
    validate_voice_speed (some 3) = Except.error ()
    ∧ spec_clamped_speed 3 = 2
    ∧ validate_voice_speed (some 3) ≠ Except.ok (spec_clamped_speed 3) := by
  have h1 : validate_voice_speed (some 3) = Except.error () := by
    simp only [validate_voice_speed]
    rw [if_neg]
    rintro ⟨-, h⟩
    norm_num at h
  have h2 : spec_clamped_speed 3 = 2 := by
    simp only [spec_clamped_speed]
    rw [min_eq_left (by norm_num : (2 : ℚ) ≤ 3), max_eq_right (by norm_num : (1 : ℚ)/2 ≤ 2)]
  refine ⟨h1, h2, ?_⟩
  rw [h1, h2]
  exact fun hEq => Except.noConfusion hEq

/-- C8 (amended, confirmed): the speed field defaults to `1.0` when
absent; a supplied value inside `[0.5, 2.0]` is accepted unchanged; a
supplied value outside that interval fails validation. -/
theorem voice_speed_default_and_bounds (v : ℚ) :
    validate_voice_speed none = Except.ok 1
    ∧ (1/2 ≤ v → v ≤ 2 → validate_voice_speed (some v) = Except.ok v)
    ∧ (¬ (1/2 ≤ v ∧ v ≤ 2) → validate_voice_speed (some v) = Except.error ()) := by
  refine ⟨rfl, ?_, ?_⟩
  · intro h1 h2
    simp only [validate_voice_speed]
    rw [if_pos ⟨h1, h2⟩]
  · intro h
    simp only [validate_voice_speed]
    rw [if_neg h]

/-- Witness for the amended C8 theorem at concrete speeds. -/
theorem voice_speed_default_and_bounds_witness :
    validate_voice_speed (some (3/2)) = Except.ok (3/2)
    ∧ validate_voice_speed (some 3) = Except.error () :=
  ⟨(voice_speed_default_and_bounds (3/2)).2.1 (by norm_num) (by norm_num),
   (voice_speed_default_and_bounds 3).2.2 (by norm_num)⟩

/-- C10 (counterexample): the string `"####"` is not valid base64, yet
`voice_to_text` does not fail before creating temporary files: CPython's
lenient decoder discards the non-alphabet characters, decodes to the empty
byte string, and the call proceeds to create its temporary files (and can
even succeed). -/
theorem invalid_base64_can_still_create_tempfiles :
    isStrictBase64 "####" = false
    ∧ (voice_to_text oracleAllFormatsFail "####" "en").trace.head?
        = some (VttEvent.acquire TempPath.wavPath)
    ∧ (voice_to_text oracleAllFormatsFail "####" "en").result = Except.ok ("ok", 85/100) := by
  refine ⟨by decide, by decide, ?_⟩
  rw [voice_to_text_ok oracleAllFormatsFail "####" "en" [] (by decide)]
  rfl

/-- C10 (amended, confirmed): whenever the base64 decode raises, the call
fails before any temporary file is created: the trace is empty, no file
exists afterwards, and the error is the wrapped decode failure. -/
theorem base64_failure_precedes_tempfile_creation
    (o : VttOracle) (data language : String)
    (hb : b64decode_lenient data = Except.error ()) :
    (voice_to_text o data language).trace = []
    ∧ (voice_to_text o data language).files = ⟨none, none⟩
    ∧ (voice_to_text o data language).result = Except.error b64FailMsg := by
  rw [voice_to_text_err o data language hb]
  exact ⟨rfl, rfl, rfl⟩

/-- Witness for the amended C10 theorem at the concrete input `"abc"`. -/
theorem base64_failure_witness :
    (voice_to_text oracleAllFormatsFail "abc" "en").trace = []
    ∧ (voice_to_text oracleAllFormatsFail "abc" "en").files = ⟨none, none⟩
    ∧ (voice_to_text oracleAllFormatsFail "abc" "en").result = Except.error b64FailMsg :=
  base64_failure_precedes_tempfile_creation oracleAllFormatsFail "abc" "en" (by decide)

/-- When the decode loop finds a first success `f`, the attempted
candidates are exactly the failing ones before `f` followed by `f` itself:
later candidates are never tried. -/
theorem tryFormats_found (dec : AudioFormat → Bool) :
    ∀ (l : List AudioFormat) (f : AudioFormat),
      (tryFormats dec l).2 = some f →
      (tryFormats dec l).1 = l.takeWhile (fun g => !dec g) ++ [f] ∧ dec f = true := by
  intro l
  induction l with
  | nil => intro f h; simp [tryFormats] at h
  | cons a rest ih =>
    intro f h
    cases ha : dec a with
    | true =>
      simp only [tryFormats, ha, if_true] at h ⊢
      injection h with h
      subst h
      simp [List.takeWhile_cons, ha]
    | false =>
      simp only [tryFormats, ha, Bool.false_eq_true, if_false] at h ⊢
      rcases ih f h with ⟨h1, h2⟩
      refine ⟨?_, h2⟩
      simp [List.takeWhile_cons, ha, h1]

/-- The recognition-stage result is never the `sr.AudioFile` open failure:
that error arises only before the recognition stage. -/
theorem recogResult_ne_decodeOpenFailMsg (o : VttOracle) :
    recogResult o ≠ Except.error decodeOpenFailMsg := by
  cases hg : o.google with
  | ok t => simp [recogResult, hg]
  | unknownValue =>
    simp only [recogResult, hg]
    intro h
    injection h with h
    exact absurd h (by decide)
  | requestError =>
    cases hs : o.sphinx with
    | ok t => simp [recogResult, hg, hs]
    | unknownValue =>
      simp only [recogResult, hg, hs]
      intro h
      injection h with h
      exact absurd h (by decide)
    | requestError =>
      simp only [recogResult, hg, hs]
      intro h
      injection h with h
      exact absurd h (by decide)

/-- C2 (confirmed): the decoder tries the fixed ordered candidate list;
the first success determines the normalized content and stops the loop; if
every candidate fails the raw payload bytes are written as the normalized
audio instead of raising; and the decode-stage failure is raised exactly
when that last-resort content cannot be opened by `sr.AudioFile`
(assuming, as for the real libraries, that a WAV exported from a
successful decode is always openable). -/
theorem decoder_first_success_and_permissive_fallback
    (o : VttOracle) (audio_data language : String) (payload : List Char)
    (hb : b64decode_lenient audio_data = Except.ok payload)
    (hexport : ∀ f, o.audioFileOk (FileContent.wavExport f) = true) :
    (∀ f, (tryFormats o.decode formatOrder).2 = some f →
        (voice_to_text o audio_data language).normalized
            = some (FileContent.wavExport f)
        ∧ (voice_to_text o audio_data language).attempted
            = formatOrder.takeWhile (fun g => !o.decode g) ++ [f])
    ∧ ((tryFormats o.decode formatOrder).2 = none →
        (voice_to_text o audio_data language).normalized
            = some (FileContent.rawBytes payload))
    ∧ ((voice_to_text o audio_data language).result = Except.error decodeOpenFailMsg
        ↔ (tryFormats o.decode formatOrder).2 = none
            ∧ o.audioFileOk (FileContent.rawBytes payload) = false) := by
  rw [voice_to_text_ok o audio_data language payload hb]
  refine ⟨?_, ?_, ?_⟩
  · intro f hf
    have hcontent : contentFor o payload = FileContent.wavExport f := by
      simp [contentFor, hf]
    constructor
    · split <;> simp [hcontent]
    · have h1 := (tryFormats_found o.decode formatOrder f hf).1
      split <;> simpa using h1
  · intro hnone
    have hcontent : contentFor o payload = FileContent.rawBytes payload := by
      simp [contentFor, hnone]
    split <;> simp [hcontent]
  · rcases hfound : (tryFormats o.decode formatOrder).2 with _ | f
    · have hcontent : contentFor o payload = FileContent.rawBytes payload := by
        simp [contentFor, hfound]
      rw [hcontent]
      cases haud : o.audioFileOk (FileContent.rawBytes payload) with
      | true => simp [haud, recogResult_ne_decodeOpenFailMsg o]
      | false => simp [haud]
    · have hcontent : contentFor o payload = FileContent.wavExport f := by
        simp [contentFor, hfound]
      rw [hcontent, if_pos (hexport f)]
      simp [recogResult_ne_decodeOpenFailMsg o]

/-- Witness for the C2 theorem: with only the `mp3` candidate decodable,
the attempts stop at `mp3` and the normalized content is its WAV export. -/
theorem decoder_first_success_witness :
    (voice_to_text oracleMp3Only "" "en").normalized
        = some (FileContent.wavExport AudioFormat.mp3)
    ∧ (voice_to_text oracleMp3Only "" "en").attempted
        = [AudioFormat.m4a, AudioFormat.mp3] := by
  have h := (decoder_first_success_and_permissive_fallback oracleMp3Only "" "en" []
      (by decide) (fun f => rfl)).1 AudioFormat.mp3 (by decide)
  refine ⟨h.1, ?_⟩
  rw [h.2]
  decide

/-- C4 (counterexample): when the primary backend is unreachable, the
offline retry does not receive the unmapped primary language code: for
`language = "hi"` the primary call gets the mapped locale `"hi-IN"` while
the single Sphinx call is made with no language argument at all. -/
theorem offline_retry_language_not_forwarded :
    sphinxLangArgs (voice_to_text oracleOfflineFallback "" "hi").trace = [none]
    ∧ googleLangArgs (voice_to_text oracleOfflineFallback "" "hi").trace = ["hi-IN"]
    ∧ sphinxLangArgs (voice_to_text oracleOfflineFallback "" "hi").trace ≠ [some "hi"] := by
  refine ⟨by decide, by decide, by decide⟩

/-- C4 (amended, confirmed): when the primary backend is unreachable the
Recognizer retries exactly once against the offline backend - one primary
call with the mapped locale, one offline call made without any language
argument, and no further calls. -/
theorem offline_retry_exactly_once_without_language
    (o : VttOracle) (data language : String) (payload : List Char)
    (hb : b64decode_lenient data = Except.ok payload)
    (haud : o.audioFileOk (contentFor o payload) = true)
    (hg : o.google = RecogOutcome.requestError) :
    sphinxLangArgs (voice_to_text o data language).trace = [none]
    ∧ googleLangArgs (voice_to_text o data language).trace
        = [get_recognition_language_code language] := by
  rw [voice_to_text_ok o data language payload hb, if_pos haud]
  constructor <;>
    simp [sphinxLangArgs, googleLangArgs, recogEvents, hg, cleanupEvents,
      List.filterMap_append, List.filterMap_cons, List.filterMap_map,
      Function.comp, filterMap_const_none]

/-- Witness for the amended C4 theorem at a concrete oracle. -/
theorem offline_retry_exactly_once_witness :
    sphinxLangArgs (voice_to_text oracleOfflineFallback "" "en").trace = [none]
    ∧ googleLangArgs (voice_to_text oracleOfflineFallback "" "en").trace
        = [get_recognition_language_code "en"] :=
  offline_retry_exactly_once_without_language oracleOfflineFallback "" "en" []
    (by decide) (by decide) rfl

/-- C5 (confirmed): with the normalized audio openable, the call fails
with the no-speech error exactly when a backend processed the audio but
found no speech (`UnknownValueError` from Google, or from Sphinx after the
primary was unreachable), and with the service-unavailable error exactly
when both backends are unreachable; the two error kinds are distinct. -/
theorem recognizer_error_kinds_distinct
    (o : VttOracle) (data language : String) (payload : List Char)
    (hb : b64decode_lenient data = Except.ok payload)
    (haud : o.audioFileOk (contentFor o payload) = true) :
    ((voice_to_text o data language).result
        = Except.error "Could not understand the audio"
      ↔ (o.google = RecogOutcome.unknownValue
          ∨ (o.google = RecogOutcome.requestError
              ∧ o.sphinx = RecogOutcome.unknownValue)))
    ∧ ((voice_to_text o data language).result
        = Except.error "Voice to text conversion failed: Speech recognition service unavailable"
      ↔ (o.google = RecogOutcome.requestError ∧ o.sphinx = RecogOutcome.requestError))
    ∧ ("Could not understand the audio" : String)
        ≠ "Voice to text conversion failed: Speech recognition service unavailable" := by
  rw [voice_to_text_ok o data language payload hb, if_pos haud]
  refine ⟨?_, ?_, by decide⟩
  · cases hg : o.google with
    | ok t => simp [recogResult, hg]
    | unknownValue => simp [recogResult, hg]
    | requestError =>
      cases hs : o.sphinx with
      | ok t => simp [recogResult, hg, hs]
      | unknownValue => simp [recogResult, hg, hs]
      | requestError =>
        simp [recogResult, hg, hs,
          show ("Voice to text conversion failed: Speech recognition service unavailable" : String)
              ≠ "Could not understand the audio" from by decide]
  · cases hg : o.google with
    | ok t => simp [recogResult, hg]
    | unknownValue =>
      simp [recogResult, hg,
        show ("Could not understand the audio" : String)
            ≠ "Voice to text conversion failed: Speech recognition service unavailable" from by decide]
    | requestError =>
      cases hs : o.sphinx with
      | ok t => simp [recogResult, hg, hs]
      | unknownValue =>
        simp [recogResult, hg, hs,
          show ("Could not understand the audio" : String)
              ≠ "Voice to text conversion failed: Speech recognition service unavailable" from by decide]
      | requestError => simp [recogResult, hg, hs]

/-- Witness for the C5 theorem: a primary backend that processes the audio
without finding speech yields the no-speech error. -/
theorem recognizer_error_kinds_witness :
    (voice_to_text oracleNoSpeech "" "en").result
      = Except.error "Could not understand the audio" :=
  ((recognizer_error_kinds_distinct oracleNoSpeech "" "en" []
      (by decide) (by decide)).1).mpr (Or.inl rfl)

theorem attemptReadPaths_append (l1 l2 : List VttEvent) :
    attemptReadPaths (l1 ++ l2) = attemptReadPaths l1 ++ attemptReadPaths l2 := by
  simp [attemptReadPaths, List.filterMap_append]

theorem attemptReadPaths_acquire_cons (p : TempPath) (l : List VttEvent) :
    attemptReadPaths (VttEvent.acquire p :: l) = attemptReadPaths l := by
  simp [attemptReadPaths, List.filterMap_cons]

theorem attemptReadPaths_attempts (tried : List AudioFormat) :
    attemptReadPaths (tried.map (fun f => VttEvent.attempt f TempPath.rawPath))
      = tried.map (fun _ => TempPath.rawPath) := by
  induction tried with
  | nil => rfl
  | cons a t ih => simp [attemptReadPaths, List.filterMap_cons] at ih ⊢; exact ih

theorem attemptReadPaths_recog (o : VttOracle) (language : String) :
    attemptReadPaths (recogEvents o language) = [] := by
  cases hg : o.google <;> simp [recogEvents, hg, attemptReadPaths, List.filterMap_cons]

theorem attemptReadPaths_cleanup : attemptReadPaths cleanupEvents = [] := rfl

theorem recogEvents_no_release (o : VttOracle) (language : String) :
    ∀ e ∈ recogEvents o language, isReleaseEvent e = false := by
  cases hg : o.google with
  | ok t =>
    intro e he
    simp [recogEvents, hg] at he
    subst he
    rfl
  | unknownValue =>
    intro e he
    simp [recogEvents, hg] at he
    subst he
    rfl
  | requestError =>
    intro e he
    simp [recogEvents, hg] at he
    rcases he with rfl | rfl <;> rfl

/-- C9 (counterexample): with every candidate failing, all five decode
attempts read the same `.raw` temporary file, no two attempts use distinct
resources, and no release happens between attempts - both releases come
only in the final cleanup, after the recognition stage. -/
theorem decode_attempts_share_resource_counterexample :
    attemptReadPaths (voice_to_text oracleAllFormatsFail "" "en").trace
      = [TempPath.rawPath, TempPath.rawPath, TempPath.rawPath,
         TempPath.rawPath, TempPath.rawPath]
    ∧ ¬ dedicatedPerAttempt (voice_to_text oracleAllFormatsFail "" "en").trace
    ∧ (voice_to_text oracleAllFormatsFail "" "en").trace
      = [VttEvent.acquire TempPath.wavPath, VttEvent.acquire TempPath.rawPath,
         VttEvent.attempt AudioFormat.m4a TempPath.rawPath,
         VttEvent.attempt AudioFormat.mp3 TempPath.rawPath,
         VttEvent.attempt AudioFormat.wav TempPath.rawPath,
         VttEvent.attempt AudioFormat.ogg TempPath.rawPath,
         VttEvent.attempt AudioFormat.webm TempPath.rawPath,
         VttEvent.googleCall "en-US",
         VttEvent.release TempPath.wavPath, VttEvent.release TempPath.rawPath] := by
  refine ⟨by decide, ?_, by decide⟩
  intro h
  have := h
  rw [dedicatedPerAttempt] at this
  revert this
  decide

/-- C9 (amended, confirmed): every decode attempt reads the single shared
`.raw` temporary file, and no temporary resource is released before the
final cleanup: the trace is a release-free prefix followed by the two
cleanup releases. -/
theorem decode_attempts_share_single_raw_resource
    (o : VttOracle) (data language : String) (payload : List Char)
    (hb : b64decode_lenient data = Except.ok payload) :
    (∀ p ∈ attemptReadPaths (voice_to_text o data language).trace,
        p = TempPath.rawPath)
    ∧ ∃ pre, (voice_to_text o data language).trace = pre ++ cleanupEvents
        ∧ ∀ e ∈ pre, isReleaseEvent e = false := by
  rw [voice_to_text_ok o data language payload hb]
  by_cases haud : o.audioFileOk (contentFor o payload) = true
  · rw [if_pos haud]
    constructor
    · intro p hp
      rw [attemptReadPaths_append, attemptReadPaths_append,
        attemptReadPaths_acquire_cons, attemptReadPaths_acquire_cons,
        attemptReadPaths_attempts, attemptReadPaths_recog,
        attemptReadPaths_cleanup] at hp
      simp only [List.append_nil] at hp
      rcases List.mem_map.mp hp with ⟨f, -, rfl⟩
      rfl
    · refine ⟨_, rfl, ?_⟩
      intro e he
      rcases List.mem_append.mp he with h | h
      · simp only [List.mem_cons] at h
        rcases h with rfl | rfl | h
        · rfl
        · rfl
        · rcases List.mem_map.mp h with ⟨f, -, rfl⟩
          rfl
      · exact recogEvents_no_release o language e h
  · rw [if_neg haud]
    constructor
    · intro p hp
      rw [attemptReadPaths_append, attemptReadPaths_acquire_cons,
        attemptReadPaths_acquire_cons, attemptReadPaths_attempts,
        attemptReadPaths_cleanup] at hp
      simp only [List.append_nil] at hp
      rcases List.mem_map.mp hp with ⟨f, -, rfl⟩
      rfl
    · refine ⟨_, rfl, ?_⟩
      intro e he
      simp only [List.mem_cons] at he
      rcases he with rfl | rfl | h
      · rfl
      · rfl
      · rcases List.mem_map.mp h with ⟨f, -, rfl⟩
        rfl

/-- Witness for the amended C9 theorem at a concrete run. -/
theorem decode_attempts_share_single_raw_resource_witness :
    (∀ p ∈ attemptReadPaths (voice_to_text oracleAllFormatsFail "" "en").trace,
        p = TempPath.rawPath)
    ∧ ∃ pre, (voice_to_text oracleAllFormatsFail "" "en").trace = pre ++ cleanupEvents
        ∧ ∀ e ∈ pre, isReleaseEvent e = false :=
  decode_attempts_share_single_raw_resource oracleAllFormatsFail "" "en" [] (by decide)

/-- C6 (confirmed): for every speed in `[0.8, 2.0]` other than `1.0`,
`text_to_speech` applies the tempo-scaling transform exactly once, persists
the transformed audio, and the returned duration is the length of that
final artifact divided by 1000; provided the external transform scales the
length to within 10 percent of `baseline / speed` (its documented tempo
contract, the transform itself living in `pydub`), the returned duration is
within 10 percent of `baselineDuration / speed`. -/
theorem tempo_scaling_applied_duration_within_tolerance
    (o : TtsOracle) (text language : String) (s : ℚ)
    (hsave : o.saveOk = true) (hlo : 4/5 ≤ s) (hhi : s ≤ 2) (hne : s ≠ 1)
    (htol : |(o.speedupLen o.baselineLen s : ℚ) - (o.baselineLen : ℚ) / s|
        ≤ ((o.baselineLen : ℚ) / s) / 10) :
    (text_to_speech o text language s).speedupCalls = [s]
    ∧ (text_to_speech o text language s).files.output
        = some (o.speedupLen o.baselineLen s)
    ∧ (text_to_speech o text language s).result
        = Except.ok (tts_audio_url, (o.speedupLen o.baselineLen s : ℚ) / 1000)
    ∧ |(o.speedupLen o.baselineLen s : ℚ) / 1000 - ((o.baselineLen : ℚ) / 1000) / s|
        ≤ (((o.baselineLen : ℚ) / 1000) / s) / 10 := by
  have h1000 : (0 : ℚ) < 1000 := by norm_num
  have habs : |(o.speedupLen o.baselineLen s : ℚ) / 1000 - ((o.baselineLen : ℚ) / 1000) / s|
      ≤ (((o.baselineLen : ℚ) / 1000) / s) / 10 := by
    have e1 : (o.speedupLen o.baselineLen s : ℚ) / 1000 - ((o.baselineLen : ℚ) / 1000) / s
        = ((o.speedupLen o.baselineLen s : ℚ) - (o.baselineLen : ℚ) / s) / 1000 := by
      ring
    have e2 : (((o.baselineLen : ℚ) / 1000) / s) / 10
        = (((o.baselineLen : ℚ) / s) / 10) / 1000 := by
      ring
    rw [e1, e2, abs_div, abs_of_pos h1000]
    exact (div_le_div_iff_of_pos_right h1000).mpr htol
  rcases lt_or_gt_of_ne hne with hlt | hgt
  · have hngt : ¬ (1 : ℚ) < s := not_lt.mpr hlt.le
    refine ⟨?_, ?_, ?_, habs⟩ <;>
      simp [text_to_speech, hsave, hne, hngt, hlo]
  · refine ⟨?_, ?_, ?_, habs⟩ <;>
      simp [text_to_speech, hsave, hne, hgt]

/-- Witness for the C6 theorem at speed 2 with a transform that halves a
4000 ms baseline. -/
theorem tempo_scaling_witness :
    (text_to_speech oracleTtsFixed "hi" "en" 2).speedupCalls = [2]
    ∧ (text_to_speech oracleTtsFixed "hi" "en" 2).result
        = Except.ok (tts_audio_url,
            (oracleTtsFixed.speedupLen oracleTtsFixed.baselineLen 2 : ℚ) / 1000) :=
  have h := tempo_scaling_applied_duration_within_tolerance oracleTtsFixed "hi" "en" 2
    rfl (by norm_num) (by norm_num) (by norm_num) (by norm_num [oracleTtsFixed])
  ⟨h.1, h.2.2.1⟩

/-- C7 (confirmed): for every speed in `[0.5, 0.8)`, `text_to_speech`
requests native slow synthesis from the backend (`slow=True` to gTTS) and
applies no tempo-scaling transform afterwards. -/
theorem slow_mode_without_tempo_scaling
    (o : TtsOracle) (text language : String) (s : ℚ)
    (hlo : 1/2 ≤ s) (hhi : s < 4/5) :
    (text_to_speech o text language s).slowRequested = true
    ∧ (text_to_speech o text language s).speedupCalls = [] := by
  have hne : s ≠ 1 := by
    intro h
    rw [h] at hhi
    norm_num at hhi
  have hngt : ¬ (1 : ℚ) < s := by
    intro h
    exact absurd (lt_trans h hhi) (by norm_num)
  have hnge : ¬ (4/5 : ℚ) ≤ s := not_le.mpr hhi
  cases hsv : o.saveOk with
  | true => constructor <;> simp [text_to_speech, hsv, hne, hngt, hnge, hhi]
  | false => constructor <;> simp [text_to_speech, hsv, hhi]

/-- Witness for the C7 theorem at speed 0.6. -/
theorem slow_mode_witness :
    (text_to_speech oracleTtsFixed "hi" "en" (3/5)).slowRequested = true
    ∧ (text_to_speech oracleTtsFixed "hi" "en" (3/5)).speedupCalls = [] :=
  slow_mode_without_tempo_scaling oracleTtsFixed "hi" "en" (3/5)
    (by norm_num) (by norm_num)
